import Mathlib

/-!
Verification model of the SubscriptionService repository.

The Go program manages subscription records in a Postgres table and
computes a monthly-billing summary.  This file embeds the repository
layer (`internal/storage/postgres/repository.go`), the service layer
(`internal/service/service.go`) and the HTTP handler layer
(`internal/api/handler/*.go`) as pure Lean functions, and proves the
specification's claims about them.

Timestamps are modelled in a single fixed location (the examples all use
UTC); `time.Time.Before` then coincides with lexicographic comparison of
the calendar fields.
-/

/-- Model of a Go `time.Time` value at second precision in one fixed
location: year, month (1..12), day, and time of day. -/
structure DateTime where
  year : Int
  month : Int
  day : Int
  hour : Int
  minute : Int
  second : Int
deriving DecidableEq, Repr

/-- `a.before b` models Go `a.Before(b)`: with a single location this is
lexicographic comparison of the calendar fields. -/
def DateTime.before (a b : DateTime) : Bool :=
  (a.year < b.year) ||
  (a.year == b.year && ((a.month < b.month) ||
    (a.month == b.month && ((a.day < b.day) ||
      (a.day == b.day && ((a.hour < b.hour) ||
        (a.hour == b.hour && ((a.minute < b.minute) ||
          (a.minute == b.minute && a.second < b.second)))))))))

/-- A calendar date, as produced by the SQL `::date` cast (time of day
dropped). -/
structure Date where
  year : Int
  month : Int
  day : Int
deriving DecidableEq, Repr

/-- Lexicographic `<=` on dates, the SQL comparison of `date` values. -/
def Date.leb (a b : Date) : Bool :=
  (a.year < b.year) ||
  (a.year == b.year && ((a.month < b.month) ||
    (a.month == b.month && a.day ≤ b.day)))

/-- The `::date` cast: drop the time of day. -/
def DateTime.toDate (t : DateTime) : Date :=
  ⟨t.year, t.month, t.day⟩

/-- `firstOfMonth` from `repository.go`:
`time.Date(t.Year(), t.Month(), 1, 0, 0, 0, 0, t.Location())`. -/
def firstOfMonth (t : DateTime) : DateTime :=
  ⟨t.year, t.month, 1, 0, 0, 0⟩

/-- Gregorian leap-year test. -/
def isLeap (y : Int) : Bool :=
  y % 4 == 0 && (y % 100 != 0 || y % 400 == 0)

/-- Number of days in a month, used both by RFC 3339 date validation and
by Postgres month arithmetic (day clamping). -/
def daysInMonth (y m : Int) : Int :=
  if m == 2 then (if isLeap y then 29 else 28)
  else if m == 4 || m == 6 || m == 9 || m == 11 then 30
  else 31

/-- Postgres `date + interval '1 month'`: step to the next month, clamping
the day to the length of the target month. -/
def addOneMonth (d : Date) : Date :=
  let y := if d.month == 12 then d.year + 1 else d.year
  let m := if d.month == 12 then 1 else d.month + 1
  ⟨y, m, min d.day (daysInMonth y m)⟩

/-- Index of a date's month on the unbounded month axis. -/
def monthIndex (d : Date) : Int :=
  d.year * 12 + (d.month - 1)

/-- Fuelled worker for `monthSeries`. -/
def monthSeriesAux : Nat → Date → Date → List Date
  | 0, _, _ => []
  | fuel + 1, cur, stop =>
    if Date.leb cur stop then cur :: monthSeriesAux fuel (addOneMonth cur) stop
    else []

/-- Postgres `generate_series(from::date, to::date, interval '1 month')`:
starting from `fromD`, repeatedly add one month while the value is still
`<= toD`.  The fuel bounds the month distance and never cuts the series
short. -/
def monthSeries (fromD toD : Date) : List Date :=
  monthSeriesAux ((monthIndex toD - monthIndex fromD).toNat + 1) fromD toD

/-- `model.Subscription`: the one entity of the system.  `userId` is the
128-bit UUID value as a number; `uuid.Nil` is `0`.  `endDate = none`
models the nil `*time.Time` (open-ended subscription). -/
structure Subscription where
  serviceName : String
  price : Int
  userId : Nat
  startDate : DateTime
  endDate : Option DateTime
deriving DecidableEq, Repr

/-- The subscriptions table: a list of rows.  The primary key
`(user_id, service_name)` is enforced by `insertSubscription`. -/
abbrev DB := List Subscription

/-- Row matches the composite key `(user_id, service_name)`. -/
def sameKey (s : Subscription) (uid : Nat) (sn : String) : Bool :=
  s.userId == uid && s.serviceName == sn

/-- Point lookup by primary key. -/
def findSub (db : DB) (uid : Nat) (sn : String) : Option Subscription :=
  db.find? (fun s => sameKey s uid sn)

/-- The date normalization both writes perform before touching the table:
`start_date` and (when present) `end_date` are replaced by the first day
of their months. -/
def normalizeSub (s : Subscription) : Subscription :=
  { s with startDate := firstOfMonth s.startDate,
           endDate := s.endDate.map firstOfMonth }

/-- `PgRepository.InsertSubscription`: normalize the dates, then INSERT;
a unique-key violation (code 23505) becomes the error
"subscription already exists". -/
def insertSubscription (db : DB) (s : Subscription) : Except String DB :=
  let s' := normalizeSub s
  match findSub db s'.userId s'.serviceName with
  | some _ => .error "subscription already exists"
  | none => .ok (db ++ [s'])

/-- `PgRepository.GetSubscription`: point SELECT by key; zero rows becomes
the error "subscription not found". -/
def getSubscription (db : DB) (uid : Nat) (sn : String) :
    Except String Subscription :=
  match findSub db uid sn with
  | some s => .ok s
  | none => .error "subscription not found"

/-- `PgRepository.UpdateSubscription`: normalize the dates, then UPDATE
`price, start_date, end_date` for the key; zero rows affected becomes
the error "subscription not found". -/
def updateSubscription (db : DB) (s : Subscription) : Except String DB :=
  let s' := normalizeSub s
  if db.any (fun r => sameKey r s'.userId s'.serviceName) then
    .ok (db.map (fun r =>
      if sameKey r s'.userId s'.serviceName then
        { r with price := s'.price, startDate := s'.startDate,
                 endDate := s'.endDate }
      else r))
  else .error "subscription not found"

/-- `PgRepository.DeleteSubscription`: DELETE by key; zero rows affected
becomes the error "subscription not found". -/
def deleteSubscription (db : DB) (uid : Nat) (sn : String) :
    Except String DB :=
  if db.any (fun r => sameKey r uid sn) then
    .ok (db.filter (fun r => !sameKey r uid sn))
  else .error "subscription not found"

/-- The optional filters of the summary and list queries:
`($3::uuid IS NULL OR s.user_id = $3) AND ($4::text IS NULL OR
s.service_name = $4)`. -/
def matchFilters (uid? : Option Nat) (sn? : Option String)
    (s : Subscription) : Bool :=
  (match uid? with | none => true | some u => s.userId == u) &&
  (match sn? with | none => true | some n => s.serviceName == n)

/-- `PgRepository.GetSubscriptionsList`: filtered SELECT. -/
def getSubscriptionsList (db : DB) (uid? : Option Nat)
    (sn? : Option String) : List Subscription :=
  db.filter (matchFilters uid? sn?)

/-- The join condition of the summary query:
`m >= s.start_date AND (s.end_date IS NULL OR m <= s.end_date)`, where
the stored dates are `date` values. -/
def subActive (m : Date) (s : Subscription) : Bool :=
  Date.leb s.startDate.toDate m &&
  (match s.endDate with
   | none => true
   | some e => Date.leb m e.toDate)

/-- `PgRepository.GetSubscriptionsSummary`: the SQL aggregate
`COALESCE(SUM(s.price), 0)` over the join of the subscriptions table with
`generate_series(from::date, to::date, interval '1 month')`, restricted
by the optional filters. -/
def getSubscriptionsSummary (db : DB) (fromT toT : DateTime)
    (uid? : Option Nat) (sn? : Option String) : Int :=
  ((monthSeries fromT.toDate toT.toDate).map (fun m =>
    ((db.filter (fun s => matchFilters uid? sn? s && subActive m s)).map
      Subscription.price).sum)).sum

/-- The date-order check shared by `Subscribe` and `UpdateSubscription`:
`subUnit.EndDate != nil && subUnit.EndDate.Before(subUnit.StartDate)`. -/
def endBeforeStart (s : Subscription) : Bool :=
  match s.endDate with
  | none => false
  | some e => DateTime.before e s.startDate

/-- `SubscriptionService.Subscribe`: reject when the end date precedes the
start date, otherwise delegate to the store's insert. -/
def serviceSubscribe (db : DB) (s : Subscription) : Except String DB :=
  if endBeforeStart s then .error "end date cannot be before start date"
  else insertSubscription db s

/-- `SubscriptionService.UpdateSubscription`: same date validation, then
delegate to the store's update. -/
def serviceUpdateSubscription (db : DB) (s : Subscription) :
    Except String DB :=
  if endBeforeStart s then .error "end date cannot be before start date"
  else updateSubscription db s

/-- `SubscriptionService.Unsubscribe`: delegate to the store's delete. -/
def serviceUnsubscribe (db : DB) (uid : Nat) (sn : String) :
    Except String DB :=
  deleteSubscription db uid sn

/-- `SubscriptionService.GetSubscription`: delegate to the store. -/
def serviceGetSubscription (db : DB) (uid : Nat) (sn : String) :
    Except String Subscription :=
  getSubscription db uid sn

/-- `SubscriptionService.ListSubscriptions`: list with user filter only. -/
def serviceListSubscriptions (db : DB) (uid : Nat) : List Subscription :=
  getSubscriptionsList db (some uid) none

/-- `SubscriptionService.GetSubscriptionSummary`: reject with
"from date cannot be after to date" when `from.After(to)`, otherwise
delegate to the aggregation query. -/
def serviceGetSummary (db : DB) (fromT toT : DateTime)
    (uid? : Option Nat) (sn? : Option String) : Except String Int :=
  if DateTime.before toT fromT then
    .error "from date cannot be after to date"
  else .ok (getSubscriptionsSummary db fromT toT uid? sn?)

/-- Value of a hexadecimal digit character, upper or lower case. -/
def hexVal (c : Char) : Option Nat :=
  if c.isDigit then some (c.toNat - 48)
  else if 'a' ≤ c && c ≤ 'f' then some (c.toNat - 87)
  else if 'A' ≤ c && c ≤ 'F' then some (c.toNat - 55)
  else none

/-- Read a list of characters as a hexadecimal number; `none` when any
character is not a hex digit. -/
def hexDigitsToNat (cs : List Char) : Option Nat :=
  cs.foldl (fun acc c =>
    match acc, hexVal c with
    | some a, some v => some (a * 16 + v)
    | _, _ => none) (some 0)

/-- Split a character list into the groups separated by `-`. -/
def splitDash : List Char → List (List Char)
  | [] => [[]]
  | c :: rest =>
    if c == '-' then [] :: splitDash rest
    else
      match splitDash rest with
      | g :: gs => (c :: g) :: gs
      | [] => [[c]]

/-- `uuid.Parse` from github.com/google/uuid, restricted to the canonical
36-character `xxxxxxxx-xxxx-xxxx-xxxx-xxxxxxxxxxxx` form the API uses;
the result is the 128-bit value (so `uuid.Nil` is `0`). -/
def uuidParse (s : String) : Option Nat :=
  match splitDash s.toList with
  | [a, b, c, d, e] =>
    if a.length == 8 && b.length == 4 && c.length == 4 &&
       d.length == 4 && e.length == 12 then
      hexDigitsToNat (a ++ b ++ c ++ d ++ e)
    else none
  | _ => none

/-- Read a list of characters as a decimal number; `none` when any
character is not a digit. -/
def decDigitsToNat (cs : List Char) : Option Nat :=
  if cs.all Char.isDigit then
    some (cs.foldl (fun acc c => acc * 10 + (c.toNat - 48)) 0)
  else none

/-- `time.Parse(time.RFC3339, s)` restricted to the UTC form
`YYYY-MM-DDThh:mm:ssZ` that the API documents; Go validates the field
ranges, including the day against the month's length. -/
def parseRFC3339 (s : String) : Option DateTime :=
  match s.toList with
  | [y1, y2, y3, y4, '-', m1, m2, '-', d1, d2, 'T',
     h1, h2, ':', n1, n2, ':', s1, s2, 'Z'] =>
    match decDigitsToNat [y1, y2, y3, y4], decDigitsToNat [m1, m2],
          decDigitsToNat [d1, d2], decDigitsToNat [h1, h2],
          decDigitsToNat [n1, n2], decDigitsToNat [s1, s2] with
    | some y, some mo, some d, some h, some mi, some se =>
      if 1 ≤ mo && mo ≤ 12 && 1 ≤ d &&
         (d : Int) ≤ daysInMonth (y : Int) (mo : Int) &&
         h ≤ 23 && mi ≤ 59 && se ≤ 59 then
        some ⟨(y : Int), (mo : Int), (d : Int), (h : Int),
              (mi : Int), (se : Int)⟩
      else none
    | _, _, _, _, _, _ => none
  | _ => none

/-- The JSON body of the create/update endpoints
(`handler.SubscriptionRequest`); `endDate = ""` models the omitted
field. -/
structure SubscriptionRequest where
  serviceName : String
  price : Int
  userId : String
  startDate : String
  endDate : String
deriving DecidableEq, Repr

/-- `handler.RequestError`: a message and the HTTP status to answer
with. -/
structure RequestError where
  message : String
  statusCode : Int
deriving DecidableEq, Repr

/-- What a handler writes to the response: the status code and either an
error message (`respondError`) or a success payload (`respondJSON`). -/
inductive Payload
  | statusOk
  | sub (s : Subscription)
  | subs (l : List Subscription)
  | total (n : Int)
deriving DecidableEq, Repr

instance {α β : Type} [DecidableEq α] [DecidableEq β] :
    DecidableEq (Except α β) := fun
  | .error a, .error b =>
    match decEq a b with
    | isTrue h => isTrue (by rw [h])
    | isFalse h => isFalse (fun hh => h (by cases hh; rfl))
  | .error _, .ok _ => isFalse (fun hh => by cases hh)
  | .ok _, .error _ => isFalse (fun hh => by cases hh)
  | .ok a, .ok b =>
    match decEq a b with
    | isTrue h => isTrue (by rw [h])
    | isFalse h => isFalse (fun hh => h (by cases hh; rfl))

/-- An HTTP response as observed by the client. -/
structure HttpResponse where
  status : Int
  body : Except String Payload
deriving DecidableEq, Repr

/-- `respondError(w, status, message)`. -/
def respondError (status : Int) (msg : String) : HttpResponse :=
  ⟨status, .error msg⟩

/-- `respondJSON(w, status, data)`. -/
def respondOk (status : Int) (p : Payload) : HttpResponse :=
  ⟨status, .ok p⟩

/-- `handler.ValidateSubscriptionRequest`: parse and validate the request
body in the source's order (user_id, service_name, price, start_date,
end_date); every failure carries status 400. -/
def ValidateSubscriptionRequest (req : SubscriptionRequest) :
    Except RequestError Subscription :=
  match uuidParse req.userId with
  | none => .error ⟨"invalid user_id parameter", 400⟩
  | some uid =>
    if uid == 0 then .error ⟨"invalid user_id parameter", 400⟩
    else if req.serviceName == "" then
      .error ⟨"service_name is required", 400⟩
    else if req.price < 0 then
      .error ⟨"price cannot be negative", 400⟩
    else match parseRFC3339 req.startDate with
    | none => .error ⟨"invalid start_date format", 400⟩
    | some sd =>
      if req.endDate == "" then
        .ok ⟨req.serviceName, req.price, uid, sd, none⟩
      else match parseRFC3339 req.endDate with
      | none => .error ⟨"invalid end_date format", 400⟩
      | some ed => .ok ⟨req.serviceName, req.price, uid, sd, some ed⟩

/-- `RestHandler.Subscribe`: `body = none` models an undecodable JSON
body; service errors other than "subscription already exists" (409)
answer 500. -/
def handleSubscribe (db : DB) (body : Option SubscriptionRequest) :
    HttpResponse × DB :=
  match body with
  | none => (respondError 400 "invalid json", db)
  | some req =>
    match ValidateSubscriptionRequest req with
    | .error e => (respondError e.statusCode e.message, db)
    | .ok sub =>
      match serviceSubscribe db sub with
      | .error msg =>
        if msg == "subscription already exists" then
          (respondError 409 msg, db)
        else (respondError 500 msg, db)
      | .ok db' => (respondOk 201 .statusOk, db')

/-- `RestHandler.UpdateSubscription`: service errors other than
"subscription not found" (404) answer 500. -/
def handleUpdateSubscription (db : DB)
    (body : Option SubscriptionRequest) : HttpResponse × DB :=
  match body with
  | none => (respondError 400 "invalid json", db)
  | some req =>
    match ValidateSubscriptionRequest req with
    | .error e => (respondError e.statusCode e.message, db)
    | .ok sub =>
      match serviceUpdateSubscription db sub with
      | .error msg =>
        if msg == "subscription not found" then
          (respondError 404 msg, db)
        else (respondError 500 msg, db)
      | .ok db' => (respondOk 200 .statusOk, db')

/-- `RestHandler.Unsubscribe`: query parameters `user_id` and
`service_name`. -/
def handleUnsubscribe (db : DB) (userIdStr serviceName : String) :
    HttpResponse × DB :=
  match uuidParse userIdStr with
  | none => (respondError 400 "invalid user_id parameter", db)
  | some uid =>
    if uid == 0 then (respondError 400 "invalid user_id parameter", db)
    else if serviceName == "" then
      (respondError 400 "service_name is required", db)
    else
      match serviceUnsubscribe db uid serviceName with
      | .error msg =>
        if msg == "subscription not found" then
          (respondError 404 msg, db)
        else (respondError 500 msg, db)
      | .ok db' => (respondOk 200 .statusOk, db')

/-- `RestHandler.GetSubscription`: query parameters `user_id` and
`service_name`. -/
def handleGetSubscription (db : DB) (userIdStr serviceName : String) :
    HttpResponse :=
  match uuidParse userIdStr with
  | none => respondError 400 "invalid user_id parameter"
  | some uid =>
    if uid == 0 then respondError 400 "invalid user_id parameter"
    else if serviceName == "" then
      respondError 400 "service_name is required"
    else
      match serviceGetSubscription db uid serviceName with
      | .error msg =>
        if msg == "subscription not found" then respondError 404 msg
        else respondError 500 msg
      | .ok s => respondOk 200 (.sub s)

/-- `RestHandler.GetSubscriptions` (the list endpoint, URL parameter
`userId`); note its distinct message "invalid userId parameter". -/
def handleGetSubscriptions (db : DB) (userIdStr : String) :
    HttpResponse :=
  match uuidParse userIdStr with
  | none => respondError 400 "invalid userId parameter"
  | some uid =>
    if uid == 0 then respondError 400 "invalid userId parameter"
    else respondOk 200 (.subs (serviceListSubscriptions db uid))

/-- The optional `user_id` parsing of the summary handler (lines 219-228
of the handler file): empty means no filter, otherwise the UUID must
parse and differ from `uuid.Nil`. -/
def parseOptionalUserId (s : String) : Except String (Option Nat) :=
  if s == "" then .ok none
  else match uuidParse s with
  | none => .error "invalid user_id parameter"
  | some uid =>
    if uid == 0 then .error "invalid user_id parameter"
    else .ok (some uid)

/-- `RestHandler.GetSubscriptionSummary`: query parameters `from`, `to`
(required RFC 3339), optional `user_id` and `service_name`; every
service-layer error answers 500. -/
def handleGetSubscriptionSummary (db : DB)
    (fromStr toStr userIdStr serviceName : String) : HttpResponse :=
  if fromStr == "" || toStr == "" then
    respondError 400 "from and to parameters are required"
  else match parseRFC3339 fromStr with
  | none => respondError 400 "invalid from date format"
  | some fromT =>
    match parseRFC3339 toStr with
    | none => respondError 400 "invalid to date format"
    | some toT =>
      match parseOptionalUserId userIdStr with
      | .error msg => respondError 400 msg
      | .ok uid? =>
        let sn? := if serviceName == "" then none else some serviceName
        match serviceGetSummary db fromT toT uid? sn? with
        | .error msg => respondError 500 msg
        | .ok n => respondOk 200 (.total n)

/-- The spec's month sequence: the first-of-month dates spanning `from`'s
month through `to`'s month inclusive, at one-month steps.  Written from
the specification's words, for comparison with the code's
`generate_series(from::date, to::date, interval '1 month')`. -/
def specMonthSeq (fromT toT : DateTime) : List Date :=
  let a := monthIndex fromT.toDate
  let b := monthIndex toT.toDate
  (List.range ((b - a).toNat + 1)).map
    (fun k => ⟨(a + k).ediv 12, (a + k).emod 12 + 1, 1⟩)

/-- The summary as the specification words it: sum of `price` over all
pairs `(subscription, m)` with `m` in the first-of-month sequence,
`m >= start_date` and (`end_date` absent or `m <= end_date`), restricted
by the optional filters.  Written from the spec, for comparison with
`getSubscriptionsSummary`. -/
def specMonthlySummary (db : DB) (fromT toT : DateTime)
    (uid? : Option Nat) (sn? : Option String) : Int :=
  ((specMonthSeq fromT toT).map (fun m =>
    ((db.filter (fun s => matchFilters uid? sn? s && subActive m s)).map
      Subscription.price).sum)).sum

/-- The qualifying (subscription, month) pairs of the summary query's
join, subscriptions outermost. -/
def summaryPairs (db : DB) (fromT toT : DateTime)
    (uid? : Option Nat) (sn? : Option String) :
    List (Subscription × Date) :=
  db.flatMap (fun s =>
    ((monthSeries fromT.toDate toT.toDate).filter
      (fun m => matchFilters uid? sn? s && subActive m s)).map
      (fun m => (s, m)))

/-- The storage invariant: the record's dates fall on the first day of
their months (at midnight). -/
def normDates (s : Subscription) : Prop :=
  s.startDate = firstOfMonth s.startDate ∧
  (match s.endDate with
   | none => True
   | some e => e = firstOfMonth e)

/-- Normalizing a record yields a record satisfying the first-of-month
invariant. -/
theorem normDates_normalizeSub (s : Subscription) :
    normDates (normalizeSub s) := by
  rcases s with ⟨sn, p, u, st, e⟩
  cases e <;> exact ⟨rfl, by trivial⟩

/-- C3: one stored subscription with `start_date` 2023-01-01, `end_date`
2023-03-01 and price 100; the summary over 2023-01-01 .. 2023-12-01 with
no filters is exactly 300 (January, February, March only). -/
theorem summary_closed_range_scenario :
    getSubscriptionsSummary
      [⟨"netflix", 100, 1, ⟨2023, 1, 1, 0, 0, 0⟩,
        some ⟨2023, 3, 1, 0, 0, 0⟩⟩]
      ⟨2023, 1, 1, 0, 0, 0⟩ ⟨2023, 12, 1, 0, 0, 0⟩ none none = 300 := by
  decide

/-- C8: for start 2023-01-10 and end 2023-01-05 — same calendar month,
raw end before raw start — both `Subscribe` and `UpdateSubscription`
fail with the date-range error although the normalized dates are equal:
the validation compares the un-normalized timestamps. -/
theorem validation_compares_unnormalized_dates :
    ∀ db : DB,
      serviceSubscribe db
        ⟨"netflix", 100, 1, ⟨2023, 1, 10, 0, 0, 0⟩,
          some ⟨2023, 1, 5, 0, 0, 0⟩⟩ =
        .error "end date cannot be before start date" ∧
      serviceUpdateSubscription db
        ⟨"netflix", 100, 1, ⟨2023, 1, 10, 0, 0, 0⟩,
          some ⟨2023, 1, 5, 0, 0, 0⟩⟩ =
        .error "end date cannot be before start date" ∧
      DateTime.before ⟨2023, 1, 5, 0, 0, 0⟩ ⟨2023, 1, 10, 0, 0, 0⟩ =
        true ∧
      firstOfMonth ⟨2023, 1, 5, 0, 0, 0⟩ =
        firstOfMonth ⟨2023, 1, 10, 0, 0, 0⟩ ∧
      DateTime.before (firstOfMonth ⟨2023, 1, 5, 0, 0, 0⟩)
        (firstOfMonth ⟨2023, 1, 10, 0, 0, 0⟩) = false := by
  intro db
  exact ⟨rfl, rfl, by decide, by decide, by decide⟩

/-- C10: `firstOfMonth` is idempotent, and a record whose dates are
already normalized is stored unchanged by the writes' normalization. -/
theorem firstOfMonth_idempotent :
    (∀ t : DateTime, firstOfMonth (firstOfMonth t) = firstOfMonth t) ∧
    (∀ s : Subscription, normDates s → normalizeSub s = s) := by
  constructor
  · intro t; rfl
  · intro s h
    rcases s with ⟨sn, p, u, st, e⟩
    rcases h with ⟨h1, h2⟩
    cases e with
    | none =>
      have hn : normalizeSub ⟨sn, p, u, st, none⟩ =
          ⟨sn, p, u, firstOfMonth st, none⟩ := rfl
      rw [hn, ← h1]
    | some e0 =>
      have h2' : e0 = firstOfMonth e0 := h2
      have hn : normalizeSub ⟨sn, p, u, st, some e0⟩ =
          ⟨sn, p, u, firstOfMonth st, some (firstOfMonth e0)⟩ := rfl
      rw [hn, ← h1, ← h2']

/-- The store's insert can only fail with the duplicate-key error. -/
theorem insertSubscription_error_shape (db : DB) (s : Subscription)
    (msg : String) (h : insertSubscription db s = .error msg) :
    msg = "subscription already exists" := by
  unfold insertSubscription at h
  dsimp only at h
  split at h
  · exact (Except.error.inj h).symm
  · cases h

/-- The store's update can only fail with the missing-row error. -/
theorem updateSubscription_error_shape (db : DB) (s : Subscription)
    (msg : String) (h : updateSubscription db s = .error msg) :
    msg = "subscription not found" := by
  unfold updateSubscription at h
  dsimp only at h
  split at h
  · cases h
  · exact (Except.error.inj h).symm

/-- The store's delete can only fail with the missing-row error. -/
theorem deleteSubscription_error_shape (db : DB) (uid : Nat)
    (sn : String) (msg : String)
    (h : deleteSubscription db uid sn = .error msg) :
    msg = "subscription not found" := by
  unfold deleteSubscription at h
  split at h
  · cases h
  · exact (Except.error.inj h).symm

/-- The store's point lookup can only fail with the missing-row error. -/
theorem getSubscription_error_shape (db : DB) (uid : Nat) (sn : String)
    (msg : String) (h : getSubscription db uid sn = .error msg) :
    msg = "subscription not found" := by
  unfold getSubscription at h
  split at h
  · cases h
  · exact (Except.error.inj h).symm

/-- C5: `Subscribe` and `UpdateSubscription` fail with the
`InvalidDateRange` error exactly when `end_date` is present and precedes
`start_date`; otherwise neither ever raises that error, whatever the
store contains. -/
theorem service_date_validation :
    ∀ (db : DB) (s : Subscription),
      ((∃ e, s.endDate = some e ∧
          DateTime.before e s.startDate = true) →
        serviceSubscribe db s =
          .error "end date cannot be before start date" ∧
        serviceUpdateSubscription db s =
          .error "end date cannot be before start date") ∧
      ((∀ e, s.endDate = some e →
          DateTime.before e s.startDate = false) →
        serviceSubscribe db s ≠
          .error "end date cannot be before start date" ∧
        serviceUpdateSubscription db s ≠
          .error "end date cannot be before start date") := by
  intro db s
  constructor
  · rintro ⟨e, he, hb⟩
    have hE : endBeforeStart s = true := by
      unfold endBeforeStart; rw [he]; exact hb
    constructor
    · unfold serviceSubscribe; rw [hE]; rfl
    · unfold serviceUpdateSubscription; rw [hE]; rfl
  · intro hnone
    have hE : endBeforeStart s = false := by
      unfold endBeforeStart
      cases he : s.endDate with
      | none => rfl
      | some e => exact hnone e he
    constructor
    · unfold serviceSubscribe
      rw [hE]
      simp only [Bool.false_eq_true, if_false]
      intro h
      have := insertSubscription_error_shape db s _ h
      exact absurd this (by decide)
    · unfold serviceUpdateSubscription
      rw [hE]
      simp only [Bool.false_eq_true, if_false]
      intro h
      have := updateSubscription_error_shape db s _ h
      exact absurd this (by decide)

/-- Witness for C5 at concrete inputs: an inverted range is rejected and
a proper range is not. -/
theorem service_date_validation_witness :
    serviceSubscribe []
      ⟨"netflix", 100, 1, ⟨2023, 2, 1, 0, 0, 0⟩,
        some ⟨2023, 1, 1, 0, 0, 0⟩⟩ =
      .error "end date cannot be before start date" ∧
    serviceSubscribe []
      ⟨"netflix", 100, 1, ⟨2023, 1, 1, 0, 0, 0⟩,
        some ⟨2023, 2, 1, 0, 0, 0⟩⟩ ≠
      .error "end date cannot be before start date" :=
  ⟨((service_date_validation []
      ⟨"netflix", 100, 1, ⟨2023, 2, 1, 0, 0, 0⟩,
        some ⟨2023, 1, 1, 0, 0, 0⟩⟩).1
      ⟨⟨2023, 1, 1, 0, 0, 0⟩, rfl, by decide⟩).1,
   ((service_date_validation []
      ⟨"netflix", 100, 1, ⟨2023, 1, 1, 0, 0, 0⟩,
        some ⟨2023, 2, 1, 0, 0, 0⟩⟩).2
      (fun e he => by cases he; decide)).1⟩

/-- C4: after a successful insert of `r` on a key absent from the store,
a point lookup on that key returns `r` with its dates normalized to the
first of their months and every other field unchanged. -/
theorem insert_get_round_trip :
    ∀ (db : DB) (r : Subscription),
      findSub db r.userId r.serviceName = none →
      insertSubscription db r = .ok (db ++ [normalizeSub r]) ∧
      getSubscription (db ++ [normalizeSub r]) r.userId r.serviceName =
        .ok (normalizeSub r) ∧
      (normalizeSub r).userId = r.userId ∧
      (normalizeSub r).serviceName = r.serviceName ∧
      (normalizeSub r).price = r.price ∧
      (normalizeSub r).startDate = firstOfMonth r.startDate ∧
      (normalizeSub r).endDate = r.endDate.map firstOfMonth := by
  intro db r h
  have hkey : findSub db (normalizeSub r).userId
      (normalizeSub r).serviceName = none := h
  refine ⟨?_, ?_, rfl, rfl, rfl, rfl, rfl⟩
  · unfold insertSubscription
    dsimp only
    rw [hkey]
  · unfold getSubscription findSub
    rw [List.find?_append]
    unfold findSub at h
    rw [h]
    have hself : sameKey (normalizeSub r) r.userId r.serviceName = true := by
      unfold sameKey normalizeSub
      simp
    have hfind : List.find? (fun s => sameKey s r.userId r.serviceName)
        [normalizeSub r] = some (normalizeSub r) := by
      simp [List.find?_cons, hself]
    rw [hfind]
    rfl

/-- Witness for C4: the round trip at a concrete record over the empty
store. -/
theorem insert_get_round_trip_witness :
    insertSubscription []
      ⟨"netflix", 100, 1, ⟨2023, 1, 15, 10, 30, 0⟩,
        some ⟨2023, 3, 20, 5, 0, 0⟩⟩ =
      .ok [normalizeSub ⟨"netflix", 100, 1, ⟨2023, 1, 15, 10, 30, 0⟩,
        some ⟨2023, 3, 20, 5, 0, 0⟩⟩] ∧
    getSubscription [normalizeSub ⟨"netflix", 100, 1,
        ⟨2023, 1, 15, 10, 30, 0⟩, some ⟨2023, 3, 20, 5, 0, 0⟩⟩] 1
        "netflix" =
      .ok (normalizeSub ⟨"netflix", 100, 1, ⟨2023, 1, 15, 10, 30, 0⟩,
        some ⟨2023, 3, 20, 5, 0, 0⟩⟩) := by
  have h := insert_get_round_trip []
    ⟨"netflix", 100, 1, ⟨2023, 1, 15, 10, 30, 0⟩,
      some ⟨2023, 3, 20, 5, 0, 0⟩⟩ (by decide)
  exact ⟨h.1, h.2.1⟩

/-- C7: the first-of-month invariant on stored dates is preserved by
every store write: insert, update and delete. -/
theorem writes_preserve_date_invariant :
    ∀ (db db' : DB) (r : Subscription) (uid : Nat) (sn : String),
      (∀ x ∈ db, normDates x) →
      (insertSubscription db r = .ok db' ∨
       updateSubscription db r = .ok db' ∨
       deleteSubscription db uid sn = .ok db') →
      ∀ x ∈ db', normDates x := by
  intro db db' r uid sn hinv hop x hx
  rcases hop with hop | hop | hop
  · unfold insertSubscription at hop
    dsimp only at hop
    split at hop
    · cases hop
    · cases hop
      rcases List.mem_append.1 hx with hx | hx
      · exact hinv x hx
      · rcases List.mem_singleton.1 hx with rfl
        exact normDates_normalizeSub r
  · unfold updateSubscription at hop
    dsimp only at hop
    split at hop
    · cases hop
      rcases List.mem_map.1 hx with ⟨y, hy, rfl⟩
      by_cases hk : sameKey y (normalizeSub r).userId
          (normalizeSub r).serviceName = true
      · rw [if_pos hk]
        rcases r with ⟨rs, rp, ru, rst, re⟩
        cases re <;> exact ⟨rfl, by trivial⟩
      · rw [if_neg hk]
        exact hinv y hy
    · cases hop
  · unfold deleteSubscription at hop
    split at hop
    · cases hop
      exact hinv x (List.mem_of_mem_filter hx)
    · cases hop

/-- Witness for C7: the invariant after a concrete insert into the empty
store. -/
theorem writes_preserve_date_invariant_witness :
    normDates (normalizeSub ⟨"netflix", 100, 1,
      ⟨2023, 1, 15, 10, 30, 0⟩, some ⟨2023, 3, 20, 5, 0, 0⟩⟩) :=
  writes_preserve_date_invariant [] [normalizeSub ⟨"netflix", 100, 1,
      ⟨2023, 1, 15, 10, 30, 0⟩, some ⟨2023, 3, 20, 5, 0, 0⟩⟩]
    ⟨"netflix", 100, 1, ⟨2023, 1, 15, 10, 30, 0⟩,
      some ⟨2023, 3, 20, 5, 0, 0⟩⟩ 1 "netflix"
    (by intro x hx; cases hx) (Or.inl rfl) _ (List.mem_singleton.2 rfl)

/-- C6: `GetSubscriptionSummary` fails with `InvalidRange` exactly when
`from` is strictly after `to`, and otherwise returns the aggregation
query's result; in particular from 2023-05-01 with to 2023-01-01 is
rejected. -/
theorem summary_range_validation :
    (∀ (db : DB) (fromT toT : DateTime) (u : Option Nat)
        (sn : Option String),
      (DateTime.before toT fromT = true →
        serviceGetSummary db fromT toT u sn =
          .error "from date cannot be after to date") ∧
      (DateTime.before toT fromT = false →
        serviceGetSummary db fromT toT u sn =
          .ok (getSubscriptionsSummary db fromT toT u sn))) ∧
    serviceGetSummary [] ⟨2023, 5, 1, 0, 0, 0⟩ ⟨2023, 1, 1, 0, 0, 0⟩
      none none = .error "from date cannot be after to date" := by
  constructor
  · intro db fromT toT u sn
    constructor <;> intro h <;> unfold serviceGetSummary <;> rw [h] <;> rfl
  · rfl

/-- Witness for C6 at concrete inputs: both branches of the range
check. -/
theorem summary_range_validation_witness :
    serviceGetSummary [] ⟨2023, 5, 1, 0, 0, 0⟩ ⟨2023, 1, 1, 0, 0, 0⟩
      none none = .error "from date cannot be after to date" ∧
    serviceGetSummary [] ⟨2023, 1, 1, 0, 0, 0⟩ ⟨2023, 5, 1, 0, 0, 0⟩
      none none =
      .ok (getSubscriptionsSummary [] ⟨2023, 1, 1, 0, 0, 0⟩
        ⟨2023, 5, 1, 0, 0, 0⟩ none none) :=
  ⟨(summary_range_validation.1 [] ⟨2023, 5, 1, 0, 0, 0⟩
      ⟨2023, 1, 1, 0, 0, 0⟩ none none).1 (by decide),
   (summary_range_validation.1 [] ⟨2023, 1, 1, 0, 0, 0⟩
      ⟨2023, 5, 1, 0, 0, 0⟩ none none).2 (by decide)⟩

/-- Pointwise sums distribute over a mapped list. -/
theorem list_sum_map_add {α : Type} (l : List α) (f g : α → Int) :
    (l.map (fun x => f x + g x)).sum = (l.map f).sum + (l.map g).sum := by
  induction l with
  | nil => simp
  | cons a l ih => simp [ih]; ring

/-- Summing a guarded constant equals summing the constant over the
filtered list. -/
theorem list_sum_if_filter {α : Type} (l : List α) (p : α → Bool)
    (c : Int) :
    (l.map (fun x => if p x then c else 0)).sum =
      ((l.filter p).map (fun _ => c)).sum := by
  induction l with
  | nil => simp
  | cons a l ih => by_cases h : p a <;> simp [List.filter_cons, h, ih]

/-- Exchange of summation for the summary query: summing per month over
the matching subscriptions equals summing the price over all qualifying
(subscription, month) join pairs. -/
theorem months_pairs_exchange (M : List Date) (db : List Subscription)
    (p : Subscription → Date → Bool) :
    (M.map (fun m =>
      ((db.filter (fun s => p s m)).map Subscription.price).sum)).sum =
    ((db.flatMap (fun s =>
      ((M.filter (p s)).map (fun m => (s, m))))).map
        (fun q => q.1.price)).sum := by
  induction db with
  | nil => simp
  | cons s db ih =>
    have hsplit : ∀ m : Date,
        (((s :: db).filter (fun x => p x m)).map Subscription.price).sum =
        (if p s m then s.price else 0) +
          ((db.filter (fun x => p x m)).map Subscription.price).sum := by
      intro m
      by_cases h : p s m <;> simp [List.filter_cons, h]
    calc (M.map (fun m =>
          (((s :: db).filter (fun x => p x m)).map
            Subscription.price).sum)).sum
        = (M.map (fun m => (if p s m then s.price else 0) +
            ((db.filter (fun x => p x m)).map
              Subscription.price).sum)).sum := by
          simp only [hsplit]
      _ = (M.map (fun m => if p s m then s.price else 0)).sum +
          (M.map (fun m =>
            ((db.filter (fun x => p x m)).map
              Subscription.price).sum)).sum :=
          list_sum_map_add M _ _
      _ = ((M.filter (p s)).map (fun _ => s.price)).sum +
          ((db.flatMap (fun x =>
            ((M.filter (p x)).map (fun m => (x, m))))).map
              (fun q => q.1.price)).sum := by
          rw [list_sum_if_filter, ih]
      _ = (((s :: db).flatMap (fun x =>
            ((M.filter (p x)).map (fun m => (x, m))))).map
              (fun q => q.1.price)).sum := by
          simp [List.map_map, Function.comp_def]

/-- C1 (amended): for `from <= to`, the summary is the sum of `price`
over the qualifying (subscription, month) pairs, where the months are
`generate_series(from::date, to::date, interval '1 month')` — the series
anchored at `from`'s own calendar date, not at the first of its month —
and it is 0 when no pair qualifies. -/
theorem summary_equals_pair_sum :
    ∀ (db : DB) (fromT toT : DateTime) (u : Option Nat)
        (sn : Option String),
      DateTime.before toT fromT = false →
      getSubscriptionsSummary db fromT toT u sn =
        ((summaryPairs db fromT toT u sn).map
          (fun q => q.1.price)).sum ∧
      (summaryPairs db fromT toT u sn = [] →
        getSubscriptionsSummary db fromT toT u sn = 0) := by
  intro db fromT toT u sn _
  have h := months_pairs_exchange (monthSeries fromT.toDate toT.toDate)
    db (fun s m => matchFilters u sn s && subActive m s)
  constructor
  · exact h
  · intro hp
    unfold getSubscriptionsSummary
    rw [h]
    unfold summaryPairs at hp
    rw [hp]
    rfl

/-- Witness for C1 (amended) at a concrete store and range. -/
theorem summary_equals_pair_sum_witness :
    getSubscriptionsSummary
      [⟨"netflix", 100, 1, ⟨2023, 1, 1, 0, 0, 0⟩,
        some ⟨2023, 3, 1, 0, 0, 0⟩⟩]
      ⟨2023, 1, 1, 0, 0, 0⟩ ⟨2023, 12, 1, 0, 0, 0⟩ none none =
    ((summaryPairs
      [⟨"netflix", 100, 1, ⟨2023, 1, 1, 0, 0, 0⟩,
        some ⟨2023, 3, 1, 0, 0, 0⟩⟩]
      ⟨2023, 1, 1, 0, 0, 0⟩ ⟨2023, 12, 1, 0, 0, 0⟩ none none).map
        (fun q => q.1.price)).sum :=
  (summary_equals_pair_sum
    [⟨"netflix", 100, 1, ⟨2023, 1, 1, 0, 0, 0⟩,
      some ⟨2023, 3, 1, 0, 0, 0⟩⟩]
    ⟨2023, 1, 1, 0, 0, 0⟩ ⟨2023, 12, 1, 0, 0, 0⟩ none none
    (by decide)).1

/-- Counterexample to C1 as stated: with `from` = 2023-01-15 and
`to` = 2023-01-20 (`from <= to`), a subscription active exactly in
January 2023 contributes 100 under the spec's first-of-month sequence,
but the code's series `[2023-01-15]` misses it and the query returns
0. -/
theorem summary_first_of_month_counterexample :
    DateTime.before ⟨2023, 1, 20, 0, 0, 0⟩ ⟨2023, 1, 15, 0, 0, 0⟩ =
      false ∧
    getSubscriptionsSummary
      [⟨"netflix", 100, 1, ⟨2023, 1, 1, 0, 0, 0⟩,
        some ⟨2023, 1, 1, 0, 0, 0⟩⟩]
      ⟨2023, 1, 15, 0, 0, 0⟩ ⟨2023, 1, 20, 0, 0, 0⟩ none none = 0 ∧
    specMonthlySummary
      [⟨"netflix", 100, 1, ⟨2023, 1, 1, 0, 0, 0⟩,
        some ⟨2023, 1, 1, 0, 0, 0⟩⟩]
      ⟨2023, 1, 15, 0, 0, 0⟩ ⟨2023, 1, 20, 0, 0, 0⟩ none none = 100 := by
  refine ⟨by decide, by decide, by decide⟩

/-- Every failure of the request-body validation carries HTTP status
400. -/
theorem validate_errors_are_400 (req : SubscriptionRequest)
    (e : RequestError)
    (h : ValidateSubscriptionRequest req = .error e) :
    e.statusCode = 400 := by
  unfold ValidateSubscriptionRequest at h
  repeat' split at h
  all_goals
    first
      | (injection h with h1; rw [← h1])
      | injection h

/-- C2 (amended): handler-level validation failures answer 400;
`AlreadyExists` answers 409 on create and `NotFound` answers 404 on
update/delete/get; every other service-layer failure — including
`InvalidDateRange` from subscribe/update and `InvalidRange` from the
summary query — answers 500. -/
theorem handler_status_mapping :
    (∀ (db : DB) (req : SubscriptionRequest) (e : RequestError),
      ValidateSubscriptionRequest req = .error e →
      e.statusCode = 400 ∧
      (handleSubscribe db (some req)).1 =
          respondError e.statusCode e.message ∧
      (handleUpdateSubscription db (some req)).1 =
          respondError e.statusCode e.message) ∧
    (∀ db : DB,
      (handleSubscribe db none).1 = respondError 400 "invalid json" ∧
      (handleUpdateSubscription db none).1 =
        respondError 400 "invalid json") ∧
    (∀ (db : DB) (req : SubscriptionRequest) (sub : Subscription)
        (msg : String),
      ValidateSubscriptionRequest req = .ok sub →
      serviceSubscribe db sub = .error msg →
      (handleSubscribe db (some req)).1 =
        if msg = "subscription already exists" then respondError 409 msg
        else respondError 500 msg) ∧
    (∀ (db : DB) (req : SubscriptionRequest) (sub : Subscription)
        (msg : String),
      ValidateSubscriptionRequest req = .ok sub →
      serviceUpdateSubscription db sub = .error msg →
      (handleUpdateSubscription db (some req)).1 =
        if msg = "subscription not found" then respondError 404 msg
        else respondError 500 msg) ∧
    (∀ (db : DB) (uid : Nat) (uS sn msg : String),
      uuidParse uS = some uid → uid ≠ 0 → sn ≠ "" →
      serviceUnsubscribe db uid sn = .error msg →
      (handleUnsubscribe db uS sn).1 =
        if msg = "subscription not found" then respondError 404 msg
        else respondError 500 msg) ∧
    (∀ (db : DB) (uid : Nat) (uS sn msg : String),
      uuidParse uS = some uid → uid ≠ 0 → sn ≠ "" →
      serviceGetSubscription db uid sn = .error msg →
      handleGetSubscription db uS sn =
        if msg = "subscription not found" then respondError 404 msg
        else respondError 500 msg) ∧
    (∀ (db : DB) (fromT toT : DateTime) (uid? : Option Nat)
        (fS tS uS sn msg : String),
      fS ≠ "" → tS ≠ "" →
      parseRFC3339 fS = some fromT → parseRFC3339 tS = some toT →
      parseOptionalUserId uS = .ok uid? →
      serviceGetSummary db fromT toT uid?
        (if sn == "" then none else some sn) = .error msg →
      handleGetSubscriptionSummary db fS tS uS sn =
        respondError 500 msg) := by
  refine ⟨?_, ?_, ?_, ?_, ?_, ?_, ?_⟩
  · intro db req e hv
    refine ⟨validate_errors_are_400 req e hv, ?_, ?_⟩ <;>
      simp [handleSubscribe, handleUpdateSubscription, hv]
  · intro db
    exact ⟨rfl, rfl⟩
  · intro db req sub msg hv hs
    by_cases hm : msg = "subscription already exists" <;>
      simp [handleSubscribe, hv, hs, hm]
  · intro db req sub msg hv hs
    by_cases hm : msg = "subscription not found" <;>
      simp [handleUpdateSubscription, hv, hs, hm]
  · intro db uid uS sn msg hu hnz hsn hs
    by_cases hm : msg = "subscription not found" <;>
      simp [handleUnsubscribe, hu, hnz, hsn, hs, hm]
  · intro db uid uS sn msg hu hnz hsn hs
    by_cases hm : msg = "subscription not found" <;>
      simp [handleGetSubscription, hu, hnz, hsn, hs, hm]
  · intro db fromT toT uid? fS tS uS sn msg hf ht hpf hpt hu hs
    simp only [beq_iff_eq] at hs
    simp [handleGetSubscriptionSummary, hf, ht, hpf, hpt, hu, hs]

/-- Witness for C2 (amended): a request whose key already exists answers
409 through the mapping. -/
theorem handler_status_mapping_witness :
    (handleSubscribe
      [⟨"netflix", 100, 128104995718371201301977091889463692474,
        ⟨2023, 10, 1, 0, 0, 0⟩, none⟩]
      (some ⟨"netflix", 100, "60601fee-2bf1-4721-ae6f-7636e79a0cba",
        "2023-10-01T00:00:00Z", ""⟩)).1 =
      if ("subscription already exists" : String) =
          "subscription already exists" then
        respondError 409 "subscription already exists"
      else respondError 500 "subscription already exists" :=
  handler_status_mapping.2.2.1
    [⟨"netflix", 100, 128104995718371201301977091889463692474,
      ⟨2023, 10, 1, 0, 0, 0⟩, none⟩]
    ⟨"netflix", 100, "60601fee-2bf1-4721-ae6f-7636e79a0cba",
      "2023-10-01T00:00:00Z", ""⟩
    ⟨"netflix", 100, 128104995718371201301977091889463692474,
      ⟨2023, 10, 1, 0, 0, 0⟩, none⟩
    "subscription already exists" (by decide) (by decide)

/-- Counterexample to C2 as stated: the service-layer validation failures
are answered with 500, not 400 — a create with `end_date` before
`start_date` and a summary with `from` after `to` both produce status
500. -/
theorem validation_failures_map_to_500 :
    (handleSubscribe []
      (some ⟨"netflix", 100, "60601fee-2bf1-4721-ae6f-7636e79a0cba",
        "2023-02-01T00:00:00Z", "2023-01-01T00:00:00Z"⟩)).1 =
      respondError 500 "end date cannot be before start date" ∧
    handleGetSubscriptionSummary [] "2023-05-01T00:00:00Z"
      "2023-01-01T00:00:00Z" "" "" =
      respondError 500 "from date cannot be after to date" ∧
    (500 : Int) ≠ 400 := by
  refine ⟨by decide, by decide, by decide⟩

/-- C9 (amended): a `user_id` parsing to the all-zero UUID is rejected
with 400 by every handler; the message is "invalid user_id parameter"
everywhere except the list handler, which answers
"invalid userId parameter". -/
theorem zero_uuid_rejected :
    ∀ (db : DB) (req : SubscriptionRequest) (sn fS tS : String)
      (fromT toT : DateTime),
      req.userId = "00000000-0000-0000-0000-000000000000" →
      fS ≠ "" → tS ≠ "" →
      parseRFC3339 fS = some fromT → parseRFC3339 tS = some toT →
      (handleSubscribe db (some req)).1 =
        respondError 400 "invalid user_id parameter" ∧
      (handleUpdateSubscription db (some req)).1 =
        respondError 400 "invalid user_id parameter" ∧
      (handleUnsubscribe db "00000000-0000-0000-0000-000000000000"
        sn).1 = respondError 400 "invalid user_id parameter" ∧
      handleGetSubscription db
        "00000000-0000-0000-0000-000000000000" sn =
        respondError 400 "invalid user_id parameter" ∧
      handleGetSubscriptionSummary db fS tS
        "00000000-0000-0000-0000-000000000000" sn =
        respondError 400 "invalid user_id parameter" ∧
      handleGetSubscriptions db
        "00000000-0000-0000-0000-000000000000" =
        respondError 400 "invalid userId parameter" := by
  intro db req sn fS tS fromT toT hreq hf ht hpf hpt
  have hz : uuidParse "00000000-0000-0000-0000-000000000000" =
      some 0 := by decide
  refine ⟨?_, ?_, ?_, ?_, ?_, ?_⟩
  · simp [handleSubscribe, ValidateSubscriptionRequest, hreq, hz]
  · simp [handleUpdateSubscription, ValidateSubscriptionRequest, hreq,
      hz]
  · simp [handleUnsubscribe, hz]
  · simp [handleGetSubscription, hz]
  · simp [handleGetSubscriptionSummary, hf, ht, hpf, hpt,
      parseOptionalUserId, hz]
  · simp [handleGetSubscriptions, hz]

/-- Witness for C9 (amended) at a concrete request. -/
theorem zero_uuid_rejected_witness :
    (handleSubscribe []
      (some ⟨"netflix", 100, "00000000-0000-0000-0000-000000000000",
        "2023-10-01T00:00:00Z", ""⟩)).1 =
      respondError 400 "invalid user_id parameter" :=
  (zero_uuid_rejected []
    ⟨"netflix", 100, "00000000-0000-0000-0000-000000000000",
      "2023-10-01T00:00:00Z", ""⟩
    "netflix" "2023-01-01T00:00:00Z" "2023-02-01T00:00:00Z"
    ⟨2023, 1, 1, 0, 0, 0⟩ ⟨2023, 2, 1, 0, 0, 0⟩
    rfl (by decide) (by decide) (by decide) (by decide)).1

/-- Counterexample to C9 as stated: the list handler rejects the all-zero
UUID with a different message, "invalid userId parameter". -/
theorem list_handler_zero_uuid_message :
    handleGetSubscriptions [] "00000000-0000-0000-0000-000000000000" =
      respondError 400 "invalid userId parameter" ∧
    "invalid userId parameter" ≠ "invalid user_id parameter" := by
  refine ⟨by decide, by decide⟩

/-- Witness for C10: a concrete already-normalized record is stored
unchanged. -/
theorem firstOfMonth_idempotent_witness :
    normalizeSub ⟨"netflix", 100, 1, ⟨2023, 1, 1, 0, 0, 0⟩,
      some ⟨2023, 3, 1, 0, 0, 0⟩⟩ =
    ⟨"netflix", 100, 1, ⟨2023, 1, 1, 0, 0, 0⟩,
      some ⟨2023, 3, 1, 0, 0, 0⟩⟩ :=
  firstOfMonth_idempotent.2 _ ⟨rfl, rfl⟩
